import Mathlib

/-!
Shallow embedding of `github_fast_downloader.py` (class `GithubFastDownloader`)
and proofs about its session lifecycle, sparse-checkout operations, default
branch parsing and path resolution.

External effects (the git subprocesses, the filesystem, the process-wide
`atexit`/`signal` registries) are modelled by explicit environment records and
explicit state passing; Python exceptions are modelled by an error type carried
in `Except`/`Option` results.
-/

namespace GFD

/-- Python exceptions that the code under study can raise or propagate.
`valueError`/`runtimeError`/`ioError` are raised explicitly by the code;
`attributeError` models access to an instance attribute that was never
assigned; `fileNotFoundError` models `subprocess.run` failing to spawn a
missing executable (an `OSError`, not a `CalledProcessError`); `indexError`
models an out-of-range `[1]` index. -/
inductive PyErr where
  | valueError (msg : String)
  | runtimeError (msg : String)
  | ioError (msg : String)
  | attributeError (attr : String)
  | fileNotFoundError (path : String)
  | indexError
deriving Repr, DecidableEq

deriving instance DecidableEq for Except

/-- The per-instance state of a `GithubFastDownloader` object that the
lifecycle methods read or write.

`attrsSet` records whether `__init__` reached the line
`self._cleaned_up = False` (line 59): when `__init__` raises earlier — the
`git binary not found in PATH` branch at line 48, before the temporary
directory at line 57 is allocated — the attributes `_cleaned_up` and
`temp_dir` do not exist on the instance, and reading them raises
`AttributeError`. -/
structure Session where
  attrsSet : Bool
  cleanedUp : Bool
  tempDirOnDisk : Bool
  cloned : Bool
  sparseEnabled : Bool
  repo_branch : Option String
deriving Repr, DecidableEq

/-- `GithubFastDownloader.cleanup` (lines 247-259):

```python
if not self._cleaned_up:          # AttributeError if attribute missing
    try:
        self.temp_dir.cleanup()
        self._cleaned_up = True
    except Exception:
        pass                      # swallowed
```

`tmpFails` says whether `self.temp_dir.cleanup()` raises; in that case the
exception is swallowed, but the flag assignment after it never runs. The
attribute read `self._cleaned_up` sits outside the `try`, so on an instance
whose construction failed before line 59 the method itself raises. -/
def cleanup (tmpFails : Bool) (s : Session) : Except PyErr Session :=
  if !s.attrsSet then
    .error (.attributeError "_cleaned_up")
  else if !s.cleanedUp then
    if tmpFails then .ok s
    else .ok { s with cleanedUp := true, tempDirOnDisk := false }
  else .ok s

/-! ## Sparse-checkout operations (`checkout_stuff`, `reset_sparse_checkout_list`) -/

/-- On-disk repository state the sparse-checkout operations touch: the content
of `.git/info/sparse-checkout` and the materialized working tree. -/
structure RepoState where
  pattern : String
  tree : List String
deriving Repr, DecidableEq

/-- Behaviour of the external git tool for one `checkout` invocation:
its exit status, its stderr, and — on success — the working tree it
materializes from a given pattern-file content. -/
structure GitEnv where
  checkoutExit : Nat
  checkoutStderr : String
  materialize : String → List String

/-- Result of one operation: the exception propagated to the caller (if any),
the repository state after the call, and the git subprocess invocations the
call performed, each as its argument list. -/
structure OpOutcome where
  err : Option PyErr
  state : RepoState
  calls : List (List String)
deriving Repr, DecidableEq

/-- The loop `for item in files_or_dirs: f.write(f"{item}\n")` (lines
182-183): the text written is each item followed by a newline, in order. -/
def writtenLines : List String → String
  | [] => ""
  | item :: rest => item ++ "\n" ++ writtenLines rest

/-- `GithubFastDownloader.checkout_stuff` (lines 165-198). The pattern file is
opened in mode `"w"` (truncate) when `reset` is true and `"a"` (append)
otherwise, the items are written one per line, and then a single
`git -C <repo_dir> checkout` subprocess runs; a non-zero exit becomes a
`RuntimeError` wrapping the tool stderr. The file write is modelled as
succeeding (its `IOError` branch only re-raises before any subprocess runs).
On a failed checkout the working tree is left as it was. -/
def checkout_stuff (env : GitEnv) (git_bin repo_dir : String) (s : RepoState)
    (files_or_dirs : List String) (reset : Bool) : OpOutcome :=
  let newPattern := if reset then writtenLines files_or_dirs
                    else s.pattern ++ writtenLines files_or_dirs
  let call := [git_bin, "-C", repo_dir, "checkout"]
  if env.checkoutExit = 0 then
    ⟨none, ⟨newPattern, env.materialize newPattern⟩, [call]⟩
  else
    ⟨some (.runtimeError ("Failed to checkout files/directories: "
        ++ env.checkoutStderr)),
      ⟨newPattern, s.tree⟩, [call]⟩

/-- `GithubFastDownloader.reset_sparse_checkout_list` (lines 200-213):
`sparse_checkout_file.write_text("")` truncates the pattern file to empty; no
subprocess runs and the working tree is untouched. The write is modelled as
succeeding (its `IOError` branch only re-raises). -/
def reset_sparse_checkout_list (s : RepoState) : OpOutcome :=
  ⟨none, ⟨"", s.tree⟩, []⟩

/-! ## Process-wide exit and signal hooks (`__init__` lines 61-63) -/

/-- The process-wide mutable registries touched by `__init__` lines 61-63.
`atexit.register(self.cleanup)` pushes one callback per session onto a
process-wide stack that the interpreter runs (last registered first) at
shutdown. `signal.signal(signal.SIGINT, self.signal_handler)` stores a single
handler slot: installing a new handler replaces whatever was there. Sessions
are identified by numeric ids; `cleaned` records the sessions whose `cleanup`
has been invoked (by C1, invoking it on a fully constructed session never
raises, so the process model only records the invocation). -/
structure ProcState where
  sigintHandler : Option Nat
  atexitStack : List Nat
  cleaned : List Nat
deriving Repr, DecidableEq

/-- Record that session `sid`'s `cleanup()` ran (idempotent). -/
def markCleaned (sid : Nat) (p : ProcState) : ProcState :=
  if sid ∈ p.cleaned then p else { p with cleaned := sid :: p.cleaned }

/-- Lines 61-63 of `__init__`, run once per constructed session:
`atexit.register(self.cleanup)` composes (pushes onto the stack), while
`signal.signal(signal.SIGINT, self.signal_handler)` replaces the single
installed handler. -/
def registerHooks (sid : Nat) (p : ProcState) : ProcState :=
  { p with atexitStack := sid :: p.atexitStack, sigintHandler := some sid }

/-- Interpreter shutdown runs every registered atexit callback, most recently
registered first. -/
def runAtexit (p : ProcState) : ProcState :=
  p.atexitStack.foldl (fun q sid => markCleaned sid q) p

/-- Delivery of SIGINT to the process. With a handler installed,
`signal_handler` (lines 237-245) runs `self.cleanup()` and then
`sys.exit(0)`; `sys.exit` starts normal interpreter shutdown, which runs the
atexit stack. With no handler installed the default behaviour raises
`KeyboardInterrupt`, whose propagation also ends in interpreter shutdown and
the atexit stack. -/
def deliverSigint (p : ProcState) : ProcState :=
  match p.sigintHandler with
  | some sid => runAtexit (markCleaned sid p)
  | none => runAtexit p

/-! ## Default-branch resolution (`get_default_branch`, lines 102-136) -/

/-- Split a character list at every character satisfying `p`, keeping empty
pieces — the semantics of Python `str.split(sep)` for a one-character
separator, lifted to a predicate. Always returns at least one piece. -/
def splitOnPred (p : Char → Bool) : List Char → List (List Char)
  | [] => [[]]
  | x :: xs =>
    if p x then [] :: splitOnPred p xs
    else
      match splitOnPred p xs with
      | [] => [[x]]
      | y :: ys => (x :: y) :: ys

/-- Whether the first list begins with the second — Python `str.startswith`
on the underlying characters. -/
def startsWithChars : List Char → List Char → Bool
  | _, [] => true
  | [], _ :: _ => false
  | x :: xs, y :: ys => x = y && startsWithChars xs ys

/-- Python `str.startswith`. -/
def pyStartsWith (s pre : String) : Bool :=
  startsWithChars s.data pre.data

/-- Python `str.splitlines()` restricted to newline-separated text, which is
what `git ls-remote` emits. Splitting keeps a final empty piece after a
trailing newline where `splitlines` drops it; an empty line never starts with
`ref:`, so the two agree on everything `get_default_branch` observes. -/
def pyLines (s : String) : List String :=
  (splitOnPred (fun c => c = '\n') s.data).map (fun l => String.mk l)

/-- Python `str.split()` with no argument: split on whitespace runs and drop
the empty pieces. -/
def pySplitWs (s : String) : List String :=
  ((splitOnPred Char.isWhitespace s.data).map (fun l => String.mk l)).filter
    (fun piece => piece ≠ "")

/-- Python `str.split("/")`: keeps empty pieces, returns `[s]` when no slash
occurs. -/
def pySplitSlash (s : String) : List String :=
  (splitOnPred (fun c => c = '/') s.data).map (fun l => String.mk l)

/-- Behaviour of the environment for one `git ls-remote --symref <url> HEAD`
invocation: whether the executable at `git_bin` can be spawned at all, and the
exit status and captured output of the subprocess when it can. -/
structure RemoteEnv where
  gitOnDisk : Bool
  lsRemoteExit : Nat
  lsRemoteStdout : String
  lsRemoteStderr : String
deriving Repr, DecidableEq

/-- `GithubFastDownloader.get_default_branch` (lines 102-136). A missing
executable makes `subprocess.run` raise `FileNotFoundError`, which the
`except subprocess.CalledProcessError` clause does not catch; a non-zero exit
becomes a `RuntimeError` naming the remote URL and wrapping stderr. Otherwise
the first stdout line starting with `ref:` is parsed as
`line.split()[1].split("/")[-1]` (the `[1]` raising `IndexError` when the
line has fewer than two tokens), and if no such line exists a `RuntimeError`
naming the remote URL is raised. -/
def get_default_branch (git_bin repo_url : String) (env : RemoteEnv) :
    Except PyErr String :=
  if !env.gitOnDisk then
    .error (.fileNotFoundError git_bin)
  else if env.lsRemoteExit ≠ 0 then
    .error (.runtimeError ("Failed to query default branch for " ++ repo_url
      ++ ": " ++ env.lsRemoteStderr))
  else
    match (pyLines env.lsRemoteStdout).find? (fun l => pyStartsWith l "ref:") with
    | some line =>
      match (pySplitWs line).get? 1 with
      | some tok => .ok ((pySplitSlash tok).getLastD "")
      | none => .error .indexError
    | none =>
      .error (.runtimeError ("Unable to detect the default branch for "
        ++ repo_url ++ ". The repository may not exist or may not be accessible."))

/-! ## Construction of the git binary path (`__init__`, lines 45-51) -/

/-- Lines 45-51 of `__init__`: with `git_bin=None` the constructor runs
`shutil.which("git")` (modelled by `whichGit`, the resolved path the search
finds, if any) and raises `ValueError` when the search fails; an explicit
`git_bin` string is stored as-is, with no validation of any kind. -/
def initGitBin (whichGit : Option String) (git_bin : Option String) :
    Except PyErr String :=
  match git_bin with
  | none =>
    match whichGit with
    | none => .error (.valueError "git binary not found in PATH")
    | some m => .ok m
  | some g => .ok g

/-! ## Clone, sparse mode, and the context manager (lines 65-100, 138-163, 265-288) -/

/-- Environment for the lifecycle subprocesses: the `ls-remote` behaviour (for
the lazy branch resolution inside `clone_repo`), exit status and stderr of the
`clone` and `config core.sparseCheckout` invocations, and whether
`temp_dir.cleanup()` fails during teardown. -/
structure LifeEnv where
  remote : RemoteEnv
  cloneExit : Nat
  cloneStderr : String
  configExit : Nat
  configStderr : String
  tmpCleanupFails : Bool
deriving Repr, DecidableEq

/-- The `subprocess.run([... "clone" ...], check=True)` step of `clone_repo`
(lines 77-100): `FileNotFoundError` when the executable cannot be spawned
(uncaught, the `except` clause only matches `CalledProcessError`), a
`RuntimeError` naming URL, branch and stderr on non-zero exit, and on success
the clone directory exists. -/
def cloneSubprocess (env : LifeEnv) (git_bin repo_url : String) (s : Session) :
    Option PyErr × Session :=
  if !env.remote.gitOnDisk then
    (some (.fileNotFoundError git_bin), s)
  else if env.cloneExit = 0 then
    (none, { s with cloned := true })
  else
    (some (.runtimeError ("Failed to clone repository " ++ repo_url
        ++ " (branch: " ++ s.repo_branch.getD "" ++ "): " ++ env.cloneStderr)),
      s)

/-- `GithubFastDownloader.clone_repo` (lines 65-100): when `self.repo_branch`
is falsy (`None` or the empty string) it is first resolved through
`get_default_branch` and cached on the instance; then the shallow
`--no-checkout --filter=blob:none` clone subprocess runs. An error from the
resolution step propagates before any clone subprocess is attempted. -/
def clone_repo (env : LifeEnv) (git_bin repo_url : String) (s : Session) :
    Option PyErr × Session :=
  if s.repo_branch.getD "" = "" then
    match get_default_branch git_bin repo_url env.remote with
    | .error e => (some e, s)
    | .ok b => cloneSubprocess env git_bin repo_url { s with repo_branch := some b }
  else
    cloneSubprocess env git_bin repo_url s

/-- `GithubFastDownloader.enable_sparse_checkout` (lines 138-163): one
`git -C <repo_dir> config core.sparseCheckout true` subprocess; a missing
executable raises `FileNotFoundError` uncaught, a non-zero exit becomes a
`RuntimeError` wrapping stderr. -/
def enable_sparse_checkout (env : LifeEnv) (git_bin : String) (s : Session) :
    Option PyErr × Session :=
  if !env.remote.gitOnDisk then
    (some (.fileNotFoundError git_bin), s)
  else if env.configExit = 0 then
    (none, { s with sparseEnabled := true })
  else
    (some (.runtimeError ("Failed to enable sparse checkout: "
        ++ env.configStderr)), s)

/-- `GithubFastDownloader.__enter__` (lines 265-273): `clone_repo()` followed
by `enable_sparse_checkout()`, returning the instance; an exception from
either step propagates out of `__enter__`. -/
def enterCM (env : LifeEnv) (git_bin repo_url : String) (s : Session) :
    Option PyErr × Session :=
  match clone_repo env git_bin repo_url s with
  | (some e, s1) => (some e, s1)
  | (none, s1) => enable_sparse_checkout env git_bin s1

/-- Result of running a `with GithubFastDownloader(...) as gfd:` block:
the exception that reaches the caller (if any), the final session state, and
how many times the `with`-statement machinery invoked `cleanup()`. -/
structure WithRun where
  err : Option PyErr
  final : Session
  cleanupRuns : Nat
deriving Repr, DecidableEq

/-- The semantics of the `with` statement over `__enter__`/`__exit__`
(lines 265-288): if `__enter__` raises, the body and `__exit__` never run;
otherwise the body runs (returning its exception, if it raised, and the state
it left behind) and `__exit__` — which just calls `cleanup()` — runs exactly
once on every exit path. An exception raised by `__exit__` itself would
replace the body exception. -/
def withDownloader (env : LifeEnv) (git_bin repo_url : String) (s : Session)
    (body : Session → Option PyErr × Session) : WithRun :=
  match enterCM env git_bin repo_url s with
  | (some e, s1) => ⟨some e, s1, 0⟩
  | (none, s1) =>
    let r := body s1
    match cleanup env.tmpCleanupFails r.2 with
    | .ok s3 => ⟨r.1, s3, 1⟩
    | .error e => ⟨some e, r.2, 1⟩

/-! ## Path resolution (`get_path_on_disk`, lines 215-235) -/

/-- The `pathlib` `/` join on POSIX paths as used at line 229
(`self.repo_dir / item_path`) for a non-empty right operand: an absolute
right operand replaces the left entirely; a relative one is appended after a
separator. -/
def pyJoin (base item : String) : String :=
  if pyStartsWith item "/" then item else base ++ "/" ++ item

/-- `GithubFastDownloader.get_path_on_disk` (lines 215-235). The filesystem is
modelled by `fs`, the existence predicate `Path.exists` consults. When
`repo_dir` does not exist a `ValueError` with the repository-missing message
is raised; when the joined path does not exist a `ValueError` naming
`item_path` and pointing at `checkout_stuff()` is raised; otherwise the
joined path is returned. No containment or normalization check is made on
`item_path`. -/
def get_path_on_disk (fs : String → Bool) (repo_dir item_path : String) :
    Except PyErr String :=
  if !fs repo_dir then
    .error (.valueError "Repository directory does not exist")
  else
    let full_path := pyJoin repo_dir item_path
    if !fs full_path then
      .error (.valueError ("File or directory \x27" ++ item_path
        ++ "\x27 does not exist in the repository. "
        ++ "Make sure it has been checked out using checkout_stuff()."))
    else
      .ok full_path

/-! ## Helpers shared by the theorems -/

/-- The call returned normally rather than raising an exception. -/
def returnedOk {α : Type} : Except PyErr α → Bool
  | .ok _ => true
  | .error _ => false

/-- Joining a list of strings starts with its head. -/
theorem join_cons (a : String) (l : List String) :
    String.join (a :: l) = a ++ String.join l := by
  simp [String.join_eq]
  rfl

/-- The text the write loop of `checkout_stuff` produces is the concatenation
of the items, each terminated by one newline. -/
theorem writtenLines_eq_join (l : List String) :
    writtenLines l = String.join (l.map (fun it => it ++ "\n")) := by
  induction l with
  | nil => rfl
  | cons a rest ih => simp [writtenLines, join_cons, ih, String.append_assoc]

/-! ## Claim C1 -/

/-- Claim C1, counterexample: on an instance whose `__init__` raised before
`self._cleaned_up = False` ran (the git-not-found branch, before the
temporary directory was allocated), `cleanup()` raises `AttributeError`
reading `self._cleaned_up` — the guard sits outside the `try` block, so
the exception is not swallowed. -/
theorem cleanup_raises_after_partial_construction :
    cleanup false ⟨false, false, true, false, false, none⟩
      = .error (.attributeError "_cleaned_up") := rfl

/-- Claim C1 (amended): on any fully constructed session — one whose
`__init__` reached the `self._cleaned_up = False` assignment — `cleanup()`
never raises, whatever `temp_dir.cleanup()` does; when the directory removal
succeeds the `_cleaned_up` flag is true afterwards; and once the flag is
true every further `cleanup()` call is a no-op, so the flag moves from false
to true at most once. -/
theorem cleanup_safe_after_full_construction (s : Session) (b : Bool)
    (h : s.attrsSet = true) :
    returnedOk (cleanup b s) = true
    ∧ (cleanup false s).map (fun t => t.cleanedUp) = .ok true
    ∧ cleanup b { s with cleanedUp := true } = .ok { s with cleanedUp := true } := by
  obtain ⟨a, c, t, cl, sp, br⟩ := s
  simp only at h
  subst h
  cases c <;> cases b <;> simp [cleanup, Except.map, returnedOk]

/-- Claim C1, witness for the amended theorem at a concrete freshly
constructed session. -/
theorem cleanup_safe_after_full_construction_witness :
    returnedOk (cleanup true ⟨true, false, true, false, false, none⟩) = true
    ∧ (cleanup false ⟨true, false, true, false, false, none⟩).map
        (fun t => t.cleanedUp) = .ok true
    ∧ cleanup true { (⟨true, false, true, false, false, none⟩ : Session) with
          cleanedUp := true }
      = .ok { (⟨true, false, true, false, false, none⟩ : Session) with
          cleanedUp := true } :=
  cleanup_safe_after_full_construction ⟨true, false, true, false, false, none⟩ true rfl

/-! ## Claim C3 -/

/-- Claim C3: for every prior pattern-file content and every path list,
`checkout_stuff` leaves the pattern file holding exactly the given paths, one
per line each terminated by a newline and nothing else, when `reset` is true,
and the prior content followed by those lines when `reset` is false; and it
performs exactly one git subprocess invocation, the checkout refresh
`git -C <repo_dir> checkout` — on both the success and the failure of that
refresh. -/
theorem checkout_updates_pattern_then_single_refresh (env : GitEnv)
    (git_bin repo_dir pat : String) (tree : List String)
    (files : List String) (reset : Bool) :
    (checkout_stuff env git_bin repo_dir ⟨pat, tree⟩ files reset).state.pattern
        = (if reset then "" else pat)
          ++ String.join (files.map (fun it => it ++ "\n"))
    ∧ (checkout_stuff env git_bin repo_dir ⟨pat, tree⟩ files reset).calls
        = [[git_bin, "-C", repo_dir, "checkout"]] := by
  unfold checkout_stuff
  by_cases hex : env.checkoutExit = 0 <;>
    cases reset <;> simp [hex, writtenLines_eq_join]

/-! ## Claim C8 -/

/-- Claim C8: `reset_sparse_checkout_list` truncates the pattern file to
empty, raises nothing, invokes no git subprocess, and leaves the materialized
working tree exactly as it was. -/
theorem reset_list_clears_without_refresh (s : RepoState) :
    (reset_sparse_checkout_list s).err = none
    ∧ (reset_sparse_checkout_list s).state.pattern = ""
    ∧ (reset_sparse_checkout_list s).calls = []
    ∧ (reset_sparse_checkout_list s).state.tree = s.tree := by
  simp [reset_sparse_checkout_list]

/-! ## Claim C9 -/

/-- Claim C9: when the checkout refresh subprocess exits non-zero, the
`RuntimeError` propagates to the caller while the pattern file already holds
the new content — fully replaced under `reset = true`, extended under
`reset = false`; nothing rolls the pattern list back. -/
theorem checkout_failure_leaves_new_pattern (env : GitEnv)
    (git_bin repo_dir pat : String) (tree : List String)
    (files : List String) (reset : Bool)
    (hfail : env.checkoutExit ≠ 0) :
    (checkout_stuff env git_bin repo_dir ⟨pat, tree⟩ files reset).err
        = some (.runtimeError ("Failed to checkout files/directories: "
            ++ env.checkoutStderr))
    ∧ (checkout_stuff env git_bin repo_dir ⟨pat, tree⟩ files reset).state.pattern
        = (if reset then "" else pat)
          ++ String.join (files.map (fun it => it ++ "\n")) := by
  unfold checkout_stuff
  cases reset <;> simp [hfail, writtenLines_eq_join]

/-- Concrete failing git environment for the C9 witness: the checkout
subprocess exits 1 with stderr `boom`. -/
def gitEnvFail : GitEnv :=
  ⟨1, "boom", fun _ => []⟩

/-- Claim C9, witness: a concrete run in which the refresh fails after the
pattern file was already replaced. -/
theorem checkout_failure_leaves_new_pattern_witness :
    gitEnvFail.checkoutExit ≠ 0
    ∧ ((checkout_stuff gitEnvFail "git" "/tmp/r" ⟨"old\n", []⟩ ["a/b"] true).err
        = some (.runtimeError ("Failed to checkout files/directories: "
            ++ gitEnvFail.checkoutStderr))
      ∧ (checkout_stuff gitEnvFail "git" "/tmp/r" ⟨"old\n", []⟩ ["a/b"] true).state.pattern
        = (if true then "" else "old\n")
          ++ String.join (["a/b"].map (fun it => it ++ "\n"))) :=
  ⟨by decide,
    checkout_failure_leaves_new_pattern gitEnvFail "git" "/tmp/r" "old\n" []
      ["a/b"] true (by decide)⟩

/-! ## Claim C2 -/

/-- Marking a session cleaned does not touch the atexit stack. -/
theorem markCleaned_atexitStack (sid : Nat) (p : ProcState) :
    (markCleaned sid p).atexitStack = p.atexitStack := by
  unfold markCleaned
  split <;> rfl

/-- Marking a session cleaned records it and preserves every cleanup already
recorded. -/
theorem mem_cleaned_markCleaned (sid x : Nat) (p : ProcState) :
    (x ∈ p.cleaned → x ∈ (markCleaned sid p).cleaned)
    ∧ sid ∈ (markCleaned sid p).cleaned := by
  unfold markCleaned
  by_cases h : sid ∈ p.cleaned <;> simp [h, List.mem_cons]
  intro hx
  exact Or.inr hx

/-- Folding `markCleaned` over a list of session ids cleans every id in the
list and keeps every cleanup already recorded. -/
theorem mem_cleaned_foldl (l : List Nat) (p : ProcState) (x : Nat)
    (h : x ∈ p.cleaned ∨ x ∈ l) :
    x ∈ (l.foldl (fun q sid => markCleaned sid q) p).cleaned := by
  induction l generalizing p with
  | nil =>
    rcases h with h | h
    · exact h
    · cases h
  | cons a rest ih =>
    apply ih
    rcases h with h | h
    · exact Or.inl ((mem_cleaned_markCleaned a x p).1 h)
    · rcases List.mem_cons.mp h with rfl | h
      · exact Or.inl (mem_cleaned_markCleaned x x p).2
      · exact Or.inr h

/-- Claim C2, counterexample: registering a second session does not compose
the SIGINT hooks — `signal.signal` stores a single handler, so after session
`1` registers, the installed handler is session `1`'s alone, no longer the
handler session `0` had installed. -/
theorem second_registration_replaces_sigint_handler :
    (registerHooks 1 (registerHooks 0 ⟨none, [], []⟩)).sigintHandler = some 1
    ∧ (registerHooks 0 ⟨none, [], []⟩).sigintHandler = some 0
    ∧ (registerHooks 1 (registerHooks 0 ⟨none, [], []⟩)).sigintHandler
        ≠ (registerHooks 0 ⟨none, [], []⟩).sigintHandler := by
  decide

/-- Claim C2 (amended): a later registration keeps every earlier session on
the atexit stack (that registry composes), and a SIGINT delivered after the
later registration still triggers the cleanup of every earlier registered
session — not through signal-handler composition, which does not happen, but
because the installed handler calls `sys.exit(0)` and interpreter shutdown
runs the composed atexit stack. -/
theorem sigint_cleans_every_registered_session (p : ProcState) (sid s2 : Nat)
    (h : sid ∈ p.atexitStack) :
    sid ∈ (registerHooks s2 p).atexitStack
    ∧ sid ∈ (deliverSigint (registerHooks s2 p)).cleaned := by
  constructor
  · exact List.mem_cons_of_mem _ h
  · show sid ∈ (runAtexit (markCleaned s2 (registerHooks s2 p))).cleaned
    unfold runAtexit
    apply mem_cleaned_foldl
    rw [markCleaned_atexitStack]
    exact Or.inr (List.mem_cons_of_mem _ h)

/-- Claim C2, witness: session 0 registered first, session 1 second; SIGINT
after both registrations cleans session 0. -/
theorem sigint_cleans_every_registered_session_witness :
    0 ∈ (⟨some 0, [0], []⟩ : ProcState).atexitStack
    ∧ (0 ∈ (registerHooks 1 ⟨some 0, [0], []⟩).atexitStack
      ∧ 0 ∈ (deliverSigint (registerHooks 1 ⟨some 0, [0], []⟩)).cleaned) :=
  ⟨by decide, sigint_cleans_every_registered_session ⟨some 0, [0], []⟩ 0 1 (by decide)⟩

/-! ## Claim C5 -/

/-- Claim C5: with the tool reachable and exiting 0, `get_default_branch`
takes the first output line beginning with `ref:` and returns the last
slash-delimited segment of that line's second whitespace-separated token; and
when no such line exists it raises a `RuntimeError` whose message names the
remote URL. -/
theorem default_branch_parses_symref (git_bin repo_url : String)
    (env : RemoteEnv) (hgit : env.gitOnDisk = true)
    (hexit : env.lsRemoteExit = 0) :
    (∀ line tok,
      (pyLines env.lsRemoteStdout).find? (fun l => pyStartsWith l "ref:")
          = some line →
      (pySplitWs line).get? 1 = some tok →
      get_default_branch git_bin repo_url env
          = .ok ((pySplitSlash tok).getLastD ""))
    ∧ ((pyLines env.lsRemoteStdout).find? (fun l => pyStartsWith l "ref:")
          = none →
      get_default_branch git_bin repo_url env
          = .error (.runtimeError ("Unable to detect the default branch for "
              ++ repo_url
              ++ ". The repository may not exist or may not be accessible."))) := by
  unfold get_default_branch
  rw [hgit, hexit]
  simp only [Bool.not_true, Bool.false_eq_true, if_false, ne_eq,
    not_true_eq_false, reduceIte]
  constructor
  · intro line tok h1 h2
    simp only [h1, h2]
  · intro h
    simp only [h]

/-- Concrete `ls-remote --symref` output for the C5 witness: HEAD points at
`refs/heads/main`. -/
def remoteEnvMain : RemoteEnv :=
  ⟨true, 0, "ref: refs/heads/main\tHEAD\n0123abc\tHEAD", ""⟩

/-- Claim C5, witness: on the canonical symref output the parsed branch is
`main`. -/
theorem default_branch_parses_symref_witness :
    remoteEnvMain.gitOnDisk = true
    ∧ get_default_branch "git" "https://github.com/o/r.git" remoteEnvMain
        = .ok "main" :=
  ⟨rfl,
    (default_branch_parses_symref "git" "https://github.com/o/r.git"
        remoteEnvMain rfl rfl).1
      "ref: refs/heads/main\tHEAD" "refs/heads/main" (by decide) (by decide)⟩

/-! ## Claim C6 -/

/-- Claim C6: `get_path_on_disk` returns the repository directory joined with
the given path when the repository directory exists and the joined path
exists; when the joined path is missing it raises the `ValueError` naming the
requested path and pointing at `checkout_stuff()`; and when the repository
directory itself is missing it raises the distinct
`Repository directory does not exist` `ValueError`. -/
theorem resolve_path_ok_or_distinguished_errors (fs : String → Bool)
    (repo_dir item_path : String) (hrepo : fs repo_dir = true) :
    (fs (pyJoin repo_dir item_path) = true →
      get_path_on_disk fs repo_dir item_path
        = .ok (pyJoin repo_dir item_path))
    ∧ (fs (pyJoin repo_dir item_path) = false →
      get_path_on_disk fs repo_dir item_path
        = .error (.valueError ("File or directory \x27" ++ item_path
            ++ "\x27 does not exist in the repository. "
            ++ "Make sure it has been checked out using checkout_stuff().")))
    ∧ (∀ rd it, fs rd = false →
      get_path_on_disk fs rd it
        = .error (.valueError "Repository directory does not exist")) := by
  refine ⟨?_, ?_, ?_⟩
  · intro hfull
    simp [get_path_on_disk, hrepo, hfull]
  · intro hfull
    simp [get_path_on_disk, hrepo, hfull]
  · intro rd it hrd
    simp [get_path_on_disk, hrd]

/-- Demo filesystem for the C6 witness: the clone directory and one
checked-out item exist. -/
def fsDemo : String → Bool :=
  fun p => p = "/tmp/w/repo" || p = "/tmp/w/repo/a/b"

/-- Claim C6, witness: a checked-out path resolves; a missing path and a
missing repository directory raise the two distinct messages. -/
theorem resolve_path_ok_or_distinguished_errors_witness :
    fsDemo "/tmp/w/repo" = true
    ∧ get_path_on_disk fsDemo "/tmp/w/repo" "a/b" = .ok "/tmp/w/repo/a/b"
    ∧ get_path_on_disk fsDemo "/tmp/w/repo" "nonexistent/x"
        = .error (.valueError ("File or directory \x27nonexistent/x\x27"
            ++ " does not exist in the repository. "
            ++ "Make sure it has been checked out using checkout_stuff()."))
    ∧ get_path_on_disk fsDemo "/gone" "a/b"
        = .error (.valueError "Repository directory does not exist") :=
  ⟨rfl,
    (resolve_path_ok_or_distinguished_errors fsDemo "/tmp/w/repo" "a/b" rfl).1
      (by decide),
    (resolve_path_ok_or_distinguished_errors fsDemo "/tmp/w/repo"
        "nonexistent/x" rfl).2.1 (by decide),
    (resolve_path_ok_or_distinguished_errors fsDemo "/tmp/w/repo" "a/b"
        rfl).2.2 "/gone" "a/b" (by decide)⟩

/-! ## Claim C7 -/

/-- Claim C7: with `git_bin=None` the constructor searches the command path
and raises the configuration `ValueError` when nothing is found, or stores
the found path; an explicit path is stored with no validation at
construction, and the first operation needing the executable — here
`get_default_branch`, the first subprocess `clone_repo` runs — raises the
executable-not-found error from the subprocess launcher (the
`executable not found` configuration-error kind of the design). -/
theorem construction_resolves_or_defers_git (p g repo_url : String)
    (env : RemoteEnv) (hmiss : env.gitOnDisk = false) :
    initGitBin none none = .error (.valueError "git binary not found in PATH")
    ∧ initGitBin (some p) none = .ok p
    ∧ initGitBin (some p) (some g) = .ok g
    ∧ get_default_branch g repo_url env = .error (.fileNotFoundError g) := by
  refine ⟨rfl, rfl, rfl, ?_⟩
  simp [get_default_branch, hmiss]

/-- Claim C7, witness: the search-failure, search-success, explicit-path and
deferred-failure cases at concrete inputs. -/
theorem construction_resolves_or_defers_git_witness :
    (⟨false, 0, "", ""⟩ : RemoteEnv).gitOnDisk = false
    ∧ (initGitBin none none
          = .error (.valueError "git binary not found in PATH")
      ∧ initGitBin (some "/usr/bin/git") none = .ok "/usr/bin/git"
      ∧ initGitBin (some "/usr/bin/git") (some "/nope/git") = .ok "/nope/git"
      ∧ get_default_branch "/nope/git" "https://github.com/o/r.git"
          ⟨false, 0, "", ""⟩ = .error (.fileNotFoundError "/nope/git")) :=
  ⟨rfl,
    construction_resolves_or_defers_git "/usr/bin/git" "/nope/git"
      "https://github.com/o/r.git" ⟨false, 0, "", ""⟩ rfl⟩

/-! ## Claim C10 -/

/-- Demo filesystem for C10: the clone directory and a file far outside it
exist. -/
def fsEscape : String → Bool :=
  fun p => p = "/tmp/w/repo" || p = "/etc/passwd"

/-- Claim C10: `get_path_on_disk` imposes no containment check — with the
repository directory present, an absolute `item_path` that exists on disk is
returned as-is: the join discards the repository directory entirely, and the
returned path does not lie under it. -/
theorem resolve_path_escapes_repo :
    get_path_on_disk fsEscape "/tmp/w/repo" "/etc/passwd" = .ok "/etc/passwd"
    ∧ pyJoin "/tmp/w/repo" "/etc/passwd" = "/etc/passwd"
    ∧ startsWithChars "/etc/passwd".data "/tmp/w/repo".data = false := by
  decide

/-! ## Claim C4 -/

/-- Claim C4: with the tool reachable and the clone and config subprocesses
succeeding, `__enter__` performs the clone and enables sparse mode on the
yielded session; and whether the body returns normally or raises, the `with`
machinery invokes `cleanup()` exactly once on scope exit, after which (the
directory removal succeeding) the temporary directory is gone in the final
state, alongside any error the body propagates. The body is assumed to leave
the construction and cleanup flags of the instance alone, which every
operation of the class does. -/
theorem with_scope_always_cleans (env : LifeEnv) (git_bin repo_url : String)
    (s : Session) (body : Session → Option PyErr × Session)
    (hgit : env.remote.gitOnDisk = true)
    (hclone : env.cloneExit = 0)
    (hcfg : env.configExit = 0)
    (hbr : s.repo_branch.getD "" ≠ "")
    (hattrs : s.attrsSet = true)
    (hcu : s.cleanedUp = false)
    (hframe : ∀ t, ((body t).2).attrsSet = t.attrsSet
        ∧ ((body t).2).cleanedUp = t.cleanedUp)
    (htmp : env.tmpCleanupFails = false) :
    (enterCM env git_bin repo_url s).1 = none
    ∧ ((enterCM env git_bin repo_url s).2).cloned = true
    ∧ ((enterCM env git_bin repo_url s).2).sparseEnabled = true
    ∧ (withDownloader env git_bin repo_url s body).cleanupRuns = 1
    ∧ ((withDownloader env git_bin repo_url s body).final).tempDirOnDisk
        = false := by
  have h1 : enterCM env git_bin repo_url s
      = (none, { s with cloned := true, sparseEnabled := true }) := by
    simp [enterCM, clone_repo, cloneSubprocess, enable_sparse_checkout,
      hgit, hclone, hcfg, hbr]
  have hA : ((body { s with cloned := true, sparseEnabled := true }).2).attrsSet
      = true := by
    rw [(hframe _).1]
    exact hattrs
  have hC : ((body { s with cloned := true, sparseEnabled := true }).2).cleanedUp
      = false := by
    rw [(hframe _).2]
    exact hcu
  have hclean : cleanup env.tmpCleanupFails
      (body { s with cloned := true, sparseEnabled := true }).2
      = .ok { (body { s with cloned := true, sparseEnabled := true }).2 with
          cleanedUp := true, tempDirOnDisk := false } := by
    rw [htmp]
    simp [cleanup, hA, hC]
  have h2 : withDownloader env git_bin repo_url s body
      = ⟨(body { s with cloned := true, sparseEnabled := true }).1,
          { (body { s with cloned := true, sparseEnabled := true }).2 with
              cleanedUp := true, tempDirOnDisk := false }, 1⟩ := by
    simp [withDownloader, h1, hclean]
  rw [h1, h2]
  exact ⟨rfl, rfl, rfl, rfl, rfl⟩

/-- Environment for the C4 witness: tool reachable, clone and config exit 0,
directory removal succeeds. -/
def lifeEnvOk : LifeEnv :=
  ⟨⟨true, 0, "", ""⟩, 0, "", 0, "", false⟩

/-- Session for the C4 witness: fully constructed, branch pinned. -/
def sessionMain : Session :=
  ⟨true, false, true, false, false, some "main"⟩

/-- Body for the C4 witness: raises a `RuntimeError` without touching the
session, exercising the propagating-exception exit path. -/
def bodyBoom : Session → Option PyErr × Session :=
  fun t => (some (.runtimeError "boom"), t)

/-- Claim C4, witness: a body that raises still leaves the scope with exactly
one cleanup run and the temporary directory gone. -/
theorem with_scope_always_cleans_witness :
    (enterCM lifeEnvOk "git" "https://github.com/o/r.git" sessionMain).1 = none
    ∧ ((enterCM lifeEnvOk "git" "https://github.com/o/r.git"
        sessionMain).2).cloned = true
    ∧ ((enterCM lifeEnvOk "git" "https://github.com/o/r.git"
        sessionMain).2).sparseEnabled = true
    ∧ (withDownloader lifeEnvOk "git" "https://github.com/o/r.git" sessionMain
        bodyBoom).cleanupRuns = 1
    ∧ ((withDownloader lifeEnvOk "git" "https://github.com/o/r.git" sessionMain
        bodyBoom).final).tempDirOnDisk = false :=
  with_scope_always_cleans lifeEnvOk "git" "https://github.com/o/r.git"
    sessionMain bodyBoom rfl rfl rfl (by decide) rfl rfl
    (fun t => ⟨rfl, rfl⟩) rfl

end GFD
